import Mathlib

/-!
Verification development for the Tech Safari robo-advisor stub
(`app/main.py`, `app/judge_client.py`).

Shallow embedding conventions:
* Python floats are modelled as exact arithmetic: stored data (closes, ADV,
  sentiment scores, weights) as `ℚ`, transcendental pricing arithmetic as `ℝ`
  with `Real.exp` in place of `np.exp`.
* `round(y, 4)` is modelled as `round (y * 10000) / 10000` over the reals
  (Mathlib's `round` is round-half-up; Python rounds halves to even — the two
  agree off exact half-way points, and no value in this development sits on a
  half-way point).
* The module-level mutable dictionaries and the judge's mutable fixture lists
  form an explicit `AppState`; Python dicts are association lists where the
  most recently written binding is found first.
* Wall-clock reads (`now_iso`, `current_minute_bucket`, the request-id
  timestamp) are supplied by an explicit `Clock` argument.
* The judge client is embedded in its stub mode; the remote-HTTP mode is a
  network pass-through and out of scope per spec §1.
-/

namespace RoboAdvisor

/-- Data row from judge_client.py lines 6-10 (the free-form `preferences`
map is never read by the rebalance pipeline and always empty in fixtures). -/
structure Client where
  clientId : String
  segment : String
  riskProfile : String
deriving DecidableEq

/-- Data row from judge_client.py lines 12-15. -/
structure Holding where
  accountId : String
  ticker : String
  qty : ℤ
deriving DecidableEq

/-- Data row from judge_client.py lines 17-20. -/
structure IndexConstituent where
  ticker : String
  weight : ℚ
  sector : String
deriving DecidableEq

/-- Data row from judge_client.py lines 22-26; `adv` is `Optional[float]`. -/
structure PriceBar where
  date : String
  ticker : String
  close : ℚ
  adv : Option ℚ
deriving DecidableEq

/-- Data row from judge_client.py lines 28-33. -/
structure SentimentRecord where
  date : String
  ticker : String
  label : String
  score : ℚ
  source : Option String
deriving DecidableEq

/-- Order model, main.py lines 34-40. -/
structure Order where
  accountId : String
  ticker : String
  side : String
  qty : ℤ
  execPrice : ℚ
  ts : String
deriving DecidableEq

/-- RebalanceResponse model, main.py lines 42-44; this is also the shape the
spec calls RebalanceResult. -/
structure RebalanceResponse where
  requestId : String
  orders : List Order
deriving DecidableEq

/-- RebalanceFilter model, main.py lines 22-26 (pydantic defaults:
minCashPct 0.02, maxSecurityWeight 0.10, maxSectorWeight 0.25). -/
structure RebalanceFilter where
  accountIds : Option (List String)
  minCashPct : ℚ
  maxSecurityWeight : ℚ
  maxSectorWeight : ℚ
deriving DecidableEq

/-- RebalanceRequest model, main.py lines 28-32 (pydantic default
sentimentWeight 0.20; riskTargetVol is accepted but never read). -/
structure RebalanceRequest where
  asOf : String
  filters : RebalanceFilter
  sentimentWeight : ℚ
  riskTargetVol : Option ℚ
deriving DecidableEq

/-- An HTTPException raised by an endpoint: status code plus detail string. -/
structure HttpError where
  status : ℕ
  detail : String
deriving DecidableEq

/-- Combined mutable module state: the three idempotency/ack dictionaries of
main.py lines 18-20 and the five judge fixture lists of judge_client.py
lines 36-70 (mutated in place by `/ingest/upload`). -/
structure AppState where
  ingestedChecksums : List (String × String)
  rebalanceResults : List (String × RebalanceResponse)
  ackedRequests : List (String × Bool)
  stubClients : List Client
  stubHoldings : List Holding
  stubIndex : List IndexConstituent
  stubPrices : List PriceBar
  stubSentiment : List SentimentRecord
deriving DecidableEq

/-- Wall-clock readings consumed during one request: `now_iso()` (main.py
lines 53-54), `current_minute_bucket()` (lines 56-58) and the second-level
timestamp used for the request id (line 200). -/
structure Clock where
  nowIso : String
  minuteBucket : String
  timestampSec : ℤ
deriving DecidableEq

/-- Python `dict` lookup on an association list in which the most recent
write is the head: the first matching key wins. -/
def dictGet {α : Type} (l : List (String × α)) (k : String) : Option α :=
  match l with
  | [] => none
  | (k', v) :: rest => if k' = k then some v else dictGet rest k

/-- Python truthiness of an `Optional[str]`: `None` and `""` are falsy. -/
def pyTruthy (s : Option String) : Bool :=
  match s with
  | none => false
  | some v => !(v == "")

/-- STUB_CLIENTS fixture, judge_client.py lines 36-41. -/
def STUB_CLIENTS : List Client :=
  [ ⟨"C001", "retail", "balanced"⟩,
    ⟨"C002", "retail", "conservative"⟩,
    ⟨"C003", "hni", "growth"⟩,
    ⟨"C004", "retail", "balanced"⟩ ]

/-- STUB_HOLDINGS fixture, judge_client.py lines 42-49. -/
def STUB_HOLDINGS : List Holding :=
  [ ⟨"C001", "AAPL", 120⟩, ⟨"C001", "MSFT", 80⟩, ⟨"C002", "V", 50⟩,
    ⟨"C003", "NVDA", 30⟩, ⟨"C004", "TSLA", 20⟩, ⟨"C004", "AAPL", 15⟩ ]

/-- STUB_INDEX fixture, judge_client.py lines 50-57. -/
def STUB_INDEX : List IndexConstituent :=
  [ ⟨"AAPL", 0.035, "Information Technology"⟩,
    ⟨"MSFT", 0.040, "Information Technology"⟩,
    ⟨"NVDA", 0.030, "Information Technology"⟩,
    ⟨"AMZN", 0.028, "Consumer Discretionary"⟩,
    ⟨"TSLA", 0.020, "Consumer Discretionary"⟩,
    ⟨"V", 0.018, "Financials"⟩ ]

/-- STUB_PRICES fixture, judge_client.py lines 58-65. -/
def STUB_PRICES : List PriceBar :=
  [ ⟨"2025-08-25", "AAPL", 227.13, some 82000000⟩,
    ⟨"2025-08-25", "MSFT", 430.55, some 25000000⟩,
    ⟨"2025-08-25", "NVDA", 116.22, some 60000000⟩,
    ⟨"2025-08-25", "AMZN", 171.40, some 50000000⟩,
    ⟨"2025-08-25", "TSLA", 238.65, some 150000000⟩,
    ⟨"2025-08-25", "V", 278.90, some 7000000⟩ ]

/-- STUB_SENTIMENT fixture, judge_client.py lines 66-70. -/
def STUB_SENTIMENT : List SentimentRecord :=
  [ ⟨"2025-08-25", "AAPL", "pos", 0.78, some "https://news.example/a"⟩,
    ⟨"2025-08-25", "TSLA", "neg", 0.66, some "https://news.example/b"⟩,
    ⟨"2025-08-25", "MSFT", "neu", 0.52, some "https://news.example/c"⟩ ]

/-- Process state at startup: empty dictionaries, default fixtures. -/
def initialState : AppState :=
  ⟨[], [], [], STUB_CLIENTS, STUB_HOLDINGS, STUB_INDEX, STUB_PRICES, STUB_SENTIMENT⟩

/-- Python's `round(y, 4)` on a real value, returned as an exact rational. -/
noncomputable def py_round4 (y : ℝ) : ℚ :=
  ((round (y * 10000) : ℤ) : ℚ) / 10000

/-- s_curve_price, main.py lines 46-51: sigmoid market-impact execution price.
The callers in main.py use the defaults k = 4.0, half_adv = 0.1, passed
explicitly here. -/
noncomputable def s_curve_price (prev_close : ℚ) (order_qty : ℤ) (adv : ℚ)
    (k : ℝ) (half_adv : ℝ) : ℚ :=
  let x : ℝ := |(order_qty : ℝ)| / (half_adv * max (adv : ℝ) 1)
  let impact : ℝ := 1 / (1 + Real.exp (-(k * (x - 1))))
  let signed : ℝ := if 0 < order_qty then impact else -impact
  py_round4 ((prev_close : ℝ) * (1 + 0.002 * signed))

/-- Python `str.isdigit` on the string's characters (nonempty, all digits). -/
def isDigits (c : String) : Bool :=
  !(c.data.isEmpty) && c.data.all (fun ch => ch.isDigit)

/-- Decimal digit-string to number, as Python `int` reads an all-digit
string. -/
def digitsToNat (l : List Char) (acc : ℕ) : ℕ :=
  match l with
  | [] => acc
  | ch :: rest => digitsToNat rest (acc * 10 + (ch.toNat - 48))

/-- An uncaught Python exception escaping an endpoint (FastAPI surfaces it
as an HTTP 500, distinct from a raised HTTPException). -/
structure PyExc where
  kind : String
deriving DecidableEq

/-- Python `cursor or "0"`: `None` and `""` are falsy. -/
def py_or_zero (cursor : Option String) : String :=
  match cursor with
  | none => "0"
  | some c => if c = "" then "0" else c

/-- Stub-mode judge `list_clients`, judge_client.py lines 88-93. Line 90 is
`start = int(cursor) if (cursor or "0").isdigit() else 0`: the guard tests
the fallback string `(cursor or "0")`, but `int` is applied to the original
cursor. A None cursor therefore passes the guard and `int(None)` raises
TypeError; an empty cursor passes it and `int("")` raises ValueError; only a
nonempty non-digit cursor reaches the `else 0` branch. -/
def list_clients (st : AppState) (limit : ℕ) (cursor : Option String) :
    Except PyExc (List Client × Option String) :=
  if isDigits (py_or_zero cursor) then
    match cursor with
    | none => Except.error ⟨"TypeError"⟩
    | some c =>
      if isDigits c then
        Except.ok ((st.stubClients.drop (digitsToNat c.data 0)).take limit,
          if digitsToNat c.data 0 + limit < st.stubClients.length then
            some (toString (digitsToNat c.data 0 + limit))
          else none)
      else Except.error ⟨"ValueError"⟩
  else
    Except.ok (st.stubClients.take limit,
      if limit < st.stubClients.length then some (toString limit) else none)

/-- Stub-mode judge `get_prices`, judge_client.py lines 123-125: filters by
date and ticker, where a `None` or empty-string argument (Python falsy)
disables that filter. -/
def get_prices (st : AppState) (date : Option String) (ticker : Option String) :
    List PriceBar :=
  st.stubPrices.filter (fun p =>
    (!(pyTruthy date) || (p.date == date.getD "")) &&
    (!(pyTruthy ticker) || (p.ticker == ticker.getD "")))

/-- Python `str.upper`, character by character. -/
def upperString (s : String) : String :=
  String.mk (s.data.map Char.toUpper)

/-- Stub-mode judge `get_sentiment`, judge_client.py lines 134-138: keeps
records whose ticker is in the upper-cased ticker set; a `None` or empty
list (Python falsy) disables the filter. -/
def get_sentiment (st : AppState) (tickers : Option (List String)) :
    List SentimentRecord :=
  match tickers with
  | none => st.stubSentiment
  | some ts =>
    if ts = [] then st.stubSentiment
    else st.stubSentiment.filter (fun s => (ts.map upperString).contains s.ticker)

/-- find_price, judge_client.py lines 147-151: first bar matching the ticker,
and the date when one is given (`date is None` disables the date test). -/
def find_price (prices : List PriceBar) (ticker : String) (date : Option String) :
    Option PriceBar :=
  prices.find? (fun p =>
    (p.ticker == ticker) &&
    (match date with
     | none => true
     | some d => p.date == d))

/-- Idempotency check opening `/rebalance`, main.py lines 160-161: the stored
result is consulted only when the header is supplied and truthy. -/
def idemHit (st : AppState) (idemKey : Option String) : Option RebalanceResponse :=
  if pyTruthy idemKey then dictGet st.rebalanceResults (idemKey.getD "") else none

/-- Price resolution of `/rebalance`, main.py lines 170-176: look for an AAPL
bar in the as-of-date query; on a miss, fall back to the first AAPL bar of
the full unfiltered price set. -/
def resolve_price (st : AppState) (asOf : String) : Option PriceBar :=
  match find_price (get_prices st (some asOf) none) "AAPL" (some asOf) with
  | some pb => some pb
  | none => find_price (get_prices st none none) "AAPL" none

/-- Sentiment record selection of `/rebalance`, main.py lines 183-184: first
record with ticker AAPL from the AAPL-filtered sentiment query. -/
def first_aapl_senti (st : AppState) : Option SentimentRecord :=
  (get_sentiment st (some ["AAPL"])).find? (fun s => s.ticker == "AAPL")

/-- Sentiment tilt, main.py line 185: `(score - 0.5) * 2` when a record
exists, else 0. -/
def tilt_of (st : AppState) : ℚ :=
  match first_aapl_senti st with
  | some s => (s.score - 1/2) * 2
  | none => 0

/-- Shared order quantity, main.py lines 191-192:
`max(1, int(round(10 * (1 + sentimentWeight * tilt))))`. -/
def qty_common_of (st : AppState) (sentimentWeight : ℚ) : ℤ :=
  max 1 (round ((10 : ℚ) * (1 + sentimentWeight * tilt_of st)))

/-- ADV argument of the pricing call, main.py line 197: Python's
`pb.adv or 1_000_000` substitutes 1,000,000 when adv is None or 0 (falsy). -/
def adv_used (pb : PriceBar) : ℚ :=
  match pb.adv with
  | none => 1000000
  | some a => if a = 0 then 1000000 else a

/-- Account resolution, main.py lines 165-168: a missing or empty
(`if not accounts`) filter list falls back to the clientIds of the default
`list_clients()` page (limit 100, cursor None) — a call that, through the
judge_client.py line 90 slip, always raises TypeError in stub mode. A
nonempty filter list is used as given and never touches the provider. -/
def resolved_accounts (st : AppState) (req : RebalanceRequest) :
    Except PyExc (List String) :=
  if req.filters.accountIds.getD [] = [] then
    match list_clients st 100 none with
    | Except.error e => Except.error e
    | Except.ok page => Except.ok (page.1.map (fun c => c.clientId))
  else
    Except.ok (req.filters.accountIds.getD [])

/-- Successful rebalance payload, main.py lines 187-201: one shared execution
price per (ticker, minute-bucket) — the bucket dictionary is created empty
per call and every account uses the single key `AAPL@bucket`, so exactly one
`s_curve_price` value is shared by all orders — and one BUY order per
resolved account. -/
noncomputable def rebalance_success_resp (st : AppState) (req : RebalanceRequest)
    (cl : Clock) (pb : PriceBar) (accounts : List String) : RebalanceResponse :=
  { requestId := "rb-" ++ toString cl.timestampSec,
    orders := accounts.map
      (fun acc =>
        { accountId := acc, ticker := "AAPL", side := "BUY",
          qty := qty_common_of st req.sentimentWeight,
          execPrice := s_curve_price pb.close (qty_common_of st req.sentimentWeight)
            (adv_used pb) 4 (1/10),
          ts := cl.nowIso }) }

/-- Detail string of the 503 raised when no price resolves, main.py
lines 177-181. -/
def no_price_detail (asOf : String) : String :=
  "No price found for AAPL (asOf=" ++ asOf ++
    "). Upload prices via /ingest/upload or configure Robo Judge."

/-- Outcome of `/rebalance`: a response, a raised HTTPException, or an
uncaught Python exception escaping the endpoint. -/
inductive RebalanceOutcome where
  | ok (resp : RebalanceResponse)
  | httpError (e : HttpError)
  | crashed (e : PyExc)
deriving DecidableEq

/-- The `/rebalance` endpoint, main.py lines 156-204: idempotency replay
first; then account resolution (lines 165-168, which can raise); then price
resolution (lines 170-181, 503 on failure); then order construction and
result storage. -/
noncomputable def rebalance (st : AppState) (req : RebalanceRequest)
    (idemKey : Option String) (cl : Clock) : RebalanceOutcome × AppState :=
  match idemHit st idemKey with
  | some r => (RebalanceOutcome.ok r, st)
  | none =>
    match resolved_accounts st req with
    | Except.error e => (RebalanceOutcome.crashed e, st)
    | Except.ok accounts =>
      match resolve_price st req.asOf with
      | none => (RebalanceOutcome.httpError ⟨503, no_price_detail req.asOf⟩, st)
      | some pb =>
        (RebalanceOutcome.ok (rebalance_success_resp st req cl pb accounts),
         if pyTruthy idemKey then
           { st with rebalanceResults :=
               (idemKey.getD "", rebalance_success_resp st req cl pb accounts) ::
                 st.rebalanceResults }
         else st)

/-- Reply of the `/ack` endpoint, main.py line 211. -/
structure AckReply where
  status : String
  duplicate : Bool
  receivedRequestId : String
  receivedOrders : ℕ
deriving DecidableEq

/-- The `/ack` endpoint, main.py lines 207-211: read the duplicate flag for
the requestId (default false), then mark it acknowledged unconditionally. -/
def ack (st : AppState) (resp : RebalanceResponse) : AckReply × AppState :=
  (⟨"ok", (dictGet st.ackedRequests resp.requestId).getD false,
    resp.requestId, resp.orders.length⟩,
   { st with ackedRequests := (resp.requestId, true) :: st.ackedRequests })

/-- Uploaded archive as seen after unpacking: the set of member names plus
the decoded records of each member. The byte-level zip/CSV/JSONL decoding
(main.py lines 74, 82-143) is out of scope per spec §1 ("the ingestion
file-parsing logic"); each `Rows` field holds the record list that parsing
a present member yields. -/
structure Archive where
  names : List String
  clientsRows : List Client
  holdingsRows : List Holding
  indexRows : List IndexConstituent
  pricesRows : List PriceBar
  sentimentRows : List SentimentRecord
deriving DecidableEq

/-- Reply of `/ingest/upload`, main.py lines 71-72 and 147-153. -/
structure IngestReply where
  datasetVersion : String
  checksum : String
  receivedFiles : List String
  asOf : Option String
  idempotent : Bool
  parsedPricesCsv : Bool
deriving DecidableEq

/-- Dictionary key of an upload, main.py line 68: `idempotency_key or
checksum` (Python `or` falls through on None or empty string). -/
def ingest_key (idemKey : Option String) (checksum : String) : String :=
  match idemKey with
  | some k => if k = "" then checksum else k
  | none => checksum

/-- Member-name requirement, main.py lines 77-79: both alternatives need
clients.csv, holdings.csv, index.csv and sentiment.jsonl, plus either
prices.csv or prices.parquet. -/
def required_ok (names : List String) : Bool :=
  (["clients.csv", "holdings.csv", "index.csv", "prices.csv",
    "sentiment.jsonl"].all (fun n => names.contains n)) ||
  (["clients.csv", "holdings.csv", "index.csv", "prices.parquet",
    "sentiment.jsonl"].all (fun n => names.contains n))

/-- Insertion into a string list sorted ascending. -/
def insertSorted (s : String) (l : List String) : List String :=
  match l with
  | [] => [s]
  | t :: rest => if s < t then s :: t :: rest else t :: insertSorted s rest

/-- Python's `sorted(set(names))` used in the 400 detail and the
receivedFiles echo (main.py lines 75, 80, 150). -/
def sortedUnique (names : List String) : List String :=
  names.dedup.foldr insertSorted []

/-- Single-quote character, used by the Python list repr. -/
def pyQuote : String := String.mk [Char.ofNat 39]

/-- Detail string of the 400 raised on missing members, main.py line 80: the
f-string embeds `sorted(names)`, rendered as a Python list repr with each
name single-quoted. -/
def ingest_missing_detail (names : List String) : String :=
  "Zip must include clients.csv, holdings.csv, index.csv, prices.csv (or prices.parquet), sentiment.jsonl. Found: [" ++
    String.intercalate ", " ((sortedUnique names).map (fun n => pyQuote ++ n ++ pyQuote)) ++
    "]"

/-- The `/ingest/upload` endpoint, main.py lines 61-153: idempotency
short-circuit, member-name check, then wholesale replacement of each fixture
list whose member is present, and registration of the dataset version. -/
def ingest_upload (st : AppState) (ar : Archive) (checksum : String)
    (idemKey : Option String) (asOf : Option String) (now : String) :
    Except HttpError IngestReply × AppState :=
  match dictGet st.ingestedChecksums (ingest_key idemKey checksum) with
  | some v =>
    (Except.ok ⟨v, checksum, [], asOf, true, false⟩, st)
  | none =>
    if required_ok ar.names then
      let st1 := if ar.names.contains "clients.csv" then
        { st with stubClients := ar.clientsRows } else st
      let st2 := if ar.names.contains "holdings.csv" then
        { st1 with stubHoldings := ar.holdingsRows } else st1
      let st3 := if ar.names.contains "index.csv" then
        { st2 with stubIndex := ar.indexRows } else st2
      let st4 := if ar.names.contains "prices.csv" then
        { st3 with stubPrices := ar.pricesRows } else st3
      let st5 := if ar.names.contains "sentiment.jsonl" then
        { st4 with stubSentiment := ar.sentimentRows } else st4
      (Except.ok ⟨"v" ++ now, checksum, sortedUnique ar.names, asOf, false,
                  ar.names.contains "prices.csv"⟩,
       { st5 with ingestedChecksums :=
           (ingest_key idemKey checksum, "v" ++ now) :: st5.ingestedChecksums })
    else
      (Except.error ⟨400, ingest_missing_detail ar.names⟩, st)

/-- One inbound state-mutating call, for stating temporal properties. -/
inductive Op where
  | ingestOp (ar : Archive) (checksum : String) (idemKey : Option String)
      (asOf : Option String) (now : String)
  | rebalanceOp (req : RebalanceRequest) (idemKey : Option String) (cl : Clock)
  | ackOp (resp : RebalanceResponse)

/-- State transition of one call. -/
noncomputable def step (st : AppState) (op : Op) : AppState :=
  match op with
  | Op.ingestOp ar ck ik asOf now => (ingest_upload st ar ck ik asOf now).2
  | Op.rebalanceOp req ik cl => (rebalance st req ik cl).2
  | Op.ackOp resp => (ack st resp).2

/-- State after a sequence of calls. -/
noncomputable def steps (st : AppState) (ops : List Op) : AppState :=
  ops.foldl step st

/-! Helper lemmas about the impact-price arithmetic. -/

lemma exp_four_eq : Real.exp 4 = Real.exp 1 ^ 4 := by
  have h : (4 : ℝ) = 1 + 1 + 1 + 1 := by norm_num
  rw [h, Real.exp_add, Real.exp_add, Real.exp_add]
  ring

lemma exp_four_gt : (54.4 : ℝ) < Real.exp 4 := by
  rw [exp_four_eq]
  have h1 : (2.7182818283 : ℝ) < Real.exp 1 := Real.exp_one_gt_d9
  calc (54.4 : ℝ) < 2.7182818283 ^ 4 := by norm_num
    _ < Real.exp 1 ^ 4 := pow_lt_pow_left₀ h1 (by norm_num) (by norm_num)

lemma exp_four_lt : Real.exp 4 < (54.7 : ℝ) := by
  rw [exp_four_eq]
  have h1 : Real.exp 1 < (2.7182818286 : ℝ) := Real.exp_one_lt_d9
  calc Real.exp 1 ^ 4 < 2.7182818286 ^ 4 :=
        pow_lt_pow_left₀ h1 (le_of_lt (Real.exp_pos 1)) (by norm_num)
    _ < 54.7 := by norm_num

lemma round_eq_of_bounds (r : ℝ) (n : ℤ) (h1 : (n : ℝ) ≤ r + 1/2)
    (h2 : r + 1/2 < (n : ℝ) + 1) : round r = n := by
  rw [round_eq]
  rw [Int.floor_eq_iff]
  constructor
  · exact h1
  · linarith

lemma py_round4_mono {a b : ℝ} (h : a ≤ b) : py_round4 a ≤ py_round4 b := by
  unfold py_round4
  have hr : round (a * 10000) ≤ round (b * 10000) := by
    rw [round_eq, round_eq]
    exact Int.floor_mono (by linarith)
  exact (div_le_div_iff_of_pos_right (by norm_num : (0:ℚ) < 10000)).mpr
    (by exact_mod_cast hr)

lemma sig_pos (t : ℝ) : 0 < 1 / (1 + Real.exp t) := by positivity

lemma sig_lt_one (t : ℝ) : 1 / (1 + Real.exp t) < 1 := by
  have h := Real.exp_pos t
  rw [div_lt_one (by linarith)]
  linarith

/-- Unfolding of `s_curve_price` into a single expression. -/
lemma s_curve_price_eq (c : ℚ) (q : ℤ) (a : ℚ) (k h : ℝ) :
    s_curve_price c q a k h =
      py_round4 ((c : ℝ) * (1 + 0.002 *
        (if 0 < q then
          1 / (1 + Real.exp (-(k * (|(q : ℝ)| / (h * max (a : ℝ) 1) - 1))))
         else
          -(1 / (1 + Real.exp (-(k * (|(q : ℝ)| / (h * max (a : ℝ) 1) - 1)))))))) :=
  rfl

/-- With a strictly positive quantity and `adv ≥ 1`, the absolute value and
the `max` drop out. -/
lemma s_curve_price_pos_qty (c a : ℚ) (q : ℤ) (hq : 0 < q) (ha : (1:ℝ) ≤ (a : ℝ)) :
    s_curve_price c q a 4 (1/10) =
      py_round4 ((c : ℝ) * (1 + 0.002 *
        (1 / (1 + Real.exp (-(4 * ((q : ℝ) / ((1/10) * (a : ℝ)) - 1))))))) := by
  rw [s_curve_price_eq, if_pos hq,
    abs_of_nonneg (by exact_mod_cast hq.le : (0:ℝ) ≤ (q : ℝ)), max_eq_left ha]

/-- With quantity 0 the participation ratio is 0 and the impact is signed as
a sell, leaving a residual factor `1 - 0.002 / (1 + e^4)`. -/
lemma s_curve_price_zero_qty (c a : ℚ) :
    s_curve_price c 0 a 4 (1/10) =
      py_round4 ((c : ℝ) * (1 - 0.002 / (1 + Real.exp 4))) := by
  rw [s_curve_price_eq, if_neg (lt_irrefl (0:ℤ))]
  have hx : |((0:ℤ) : ℝ)| / ((1/10) * max (a : ℝ) 1) = 0 := by
    simp
  rw [hx]
  have harg : -((4:ℝ) * (0 - 1)) = 4 := by norm_num
  rw [harg]
  congr 1
  ring

lemma c4_exp_gt : (54.39 : ℝ) < Real.exp (4 - 1/205000) := by
  have heq : Real.exp (4 - 1/205000) = Real.exp 4 * Real.exp (-(1/205000)) := by
    rw [← Real.exp_add]
    norm_num
  have h1 : (1 : ℝ) - 1/205000 ≤ Real.exp (-(1/205000)) := by
    have h := Real.add_one_le_exp (-(1/205000) : ℝ)
    linarith
  have hp : (0 : ℝ) < Real.exp (-(1/205000)) := Real.exp_pos _
  rw [heq]
  calc (54.39 : ℝ) < 54.4 * (1 - 1/205000) := by norm_num
    _ ≤ 54.4 * Real.exp (-(1/205000)) :=
        mul_le_mul_of_nonneg_left h1 (by norm_num)
    _ < Real.exp 4 * Real.exp (-(1/205000)) :=
        mul_lt_mul_of_pos_right exp_four_gt hp

lemma c4_exp_lt : Real.exp (4 - 1/205000) < (54.7 : ℝ) := by
  have h := Real.exp_lt_exp.mpr (show (4:ℝ) - 1/205000 < 4 by norm_num)
  linarith [exp_four_lt]

/-- Exact value of the worked example `price(227.13, 10, 82000000)`:
a buy of 10 shares against ADV 82M prices at 227.1382, slightly above the
reference close. -/
lemma c4_val : s_curve_price 227.13 10 82000000 4 (1/10) = 227.1382 := by
  rw [s_curve_price_pos_qty 227.13 82000000 10 (by norm_num) (by norm_num)]
  have hA : -((4:ℝ) * (((10:ℤ) : ℝ) / ((1/10) * ((82000000:ℚ) : ℝ)) - 1)) =
      4 - 1/205000 := by
    push_cast
    norm_num
  rw [hA]
  have hden : (0 : ℝ) < 1 + Real.exp (4 - 1/205000) := by positivity
  have hu1 : 1 / (1 + Real.exp (4 - 1/205000)) < 1 / 55.39 :=
    one_div_lt_one_div_of_lt (by norm_num) (by linarith [c4_exp_gt])
  have hu2 : (1:ℝ) / 55.7 < 1 / (1 + Real.exp (4 - 1/205000)) :=
    one_div_lt_one_div_of_lt hden (by linarith [c4_exp_lt])
  unfold py_round4
  have hexp : ((227.13:ℚ) : ℝ) * (1 + 0.002 * (1 / (1 + Real.exp (4 - 1/205000)))) * 10000
      = 2271300 + 4542.6 * (1 / (1 + Real.exp (4 - 1/205000))) := by
    push_cast
    ring
  rw [hexp]
  have hround : round ((2271300:ℝ) + 4542.6 * (1 / (1 + Real.exp (4 - 1/205000)))) =
      (2271382 : ℤ) := by
    apply round_eq_of_bounds
    · push_cast
      linarith
    · push_cast
      linarith
  rw [hround]
  norm_num

/-- Exact value of `price(227.13, 0, 82000000)`: the zero-quantity call
returns 227.1218, not the reference close 227.13. -/
lemma c2_val : s_curve_price 227.13 0 82000000 4 (1/10) = 227.1218 := by
  rw [s_curve_price_zero_qty]
  have hden : (0 : ℝ) < 1 + Real.exp 4 := by positivity
  have hu1 : 1 / (1 + Real.exp 4) < 1 / 55.4 :=
    one_div_lt_one_div_of_lt (by norm_num) (by linarith [exp_four_gt])
  have hu2 : (1:ℝ) / 55.7 < 1 / (1 + Real.exp 4) :=
    one_div_lt_one_div_of_lt hden (by linarith [exp_four_lt])
  unfold py_round4
  have hexp : ((227.13:ℚ) : ℝ) * (1 - 0.002 / (1 + Real.exp 4)) * 10000
      = 2271300 - 4542.6 * (1 / (1 + Real.exp 4)) := by
    push_cast
    ring
  rw [hexp]
  have hround : round ((2271300:ℝ) - 4542.6 * (1 / (1 + Real.exp 4))) = (2271218 : ℤ) := by
    apply round_eq_of_bounds
    · push_cast
      linarith
    · push_cast
      linarith
  rw [hround]
  norm_num

/-- Exact value showing downward rounding for a tiny positive close: a buy of
1 share at close 0.00004 with ADV 1 prices at exactly 0. -/
lemma c3_val : s_curve_price (1/25000) 1 1 4 (1/10) = 0 := by
  rw [s_curve_price_pos_qty (1/25000) 1 1 (by norm_num) (by norm_num)]
  have hA : -((4:ℝ) * (((1:ℤ) : ℝ) / ((1/10) * ((1:ℚ) : ℝ)) - 1)) = -36 := by
    push_cast
    norm_num
  rw [hA]
  have h1 := sig_pos (-36 : ℝ)
  have h2 := sig_lt_one (-36 : ℝ)
  unfold py_round4
  have hexp : ((1/25000 : ℚ) : ℝ) * (1 + 0.002 * (1 / (1 + Real.exp (-36)))) * 10000
      = 0.4 + 0.0008 * (1 / (1 + Real.exp (-36))) := by
    push_cast
    ring
  rw [hexp]
  have hround : round ((0.4:ℝ) + 0.0008 * (1 / (1 + Real.exp (-36)))) = (0 : ℤ) := by
    apply round_eq_of_bounds
    · push_cast
      linarith
    · push_cast
      linarith
  rw [hround]
  norm_num

/-! Claims C2, C3, C4: properties of `s_curve_price`. -/

/-- Claim C2, counterexample: at the fixture close 227.13 (already a
4-decimal value, so equal to its own 4-decimal rounding) and ADV 82,000,000,
the orderQty = 0 call returns 227.1218, not referenceClose rounded to
4 decimals. The zero order is signed as a sell, so a residual impact of
0.002/(1+e^4) remains. -/
theorem c2_counterexample :
    s_curve_price 227.13 0 82000000 4 (1/10) = 227.1218 ∧
    py_round4 ((227.13 : ℚ) : ℝ) = 227.13 ∧
    s_curve_price 227.13 0 82000000 4 (1/10) ≠ py_round4 ((227.13 : ℚ) : ℝ) := by
  have hr : py_round4 ((227.13 : ℚ) : ℝ) = 227.13 := by
    unfold py_round4
    have h : round (((227.13 : ℚ) : ℝ) * 10000) = (2271300 : ℤ) := by
      apply round_eq_of_bounds
      · push_cast
        norm_num
      · push_cast
        norm_num
    rw [h]
    norm_num
  refine ⟨c2_val, hr, ?_⟩
  rw [c2_val, hr]
  norm_num

/-- Claim C2, amended: for every referenceClose and adv, the orderQty = 0
call returns `referenceClose * (1 - 0.002 / (1 + e^4))` rounded to 4
decimals — a sell-signed residual impact of about 0.0036% — rather than
referenceClose itself. -/
theorem c2_zero_qty_residual (c adv : ℚ) :
    s_curve_price c 0 adv 4 (1/10) =
      py_round4 ((c : ℝ) * (1 - 0.002 / (1 + Real.exp 4))) :=
  s_curve_price_zero_qty c adv

/-- Claim C3, counterexample: at referenceClose 0.00004 (= 1/25000), a buy of
1 share with ADV 1 returns 0, which is strictly below the reference close —
4-decimal rounding can carry the price past the close. -/
theorem c3_counterexample :
    s_curve_price (1/25000) 1 1 4 (1/10) = 0 ∧
    ¬ ((1/25000 : ℚ) ≤ s_curve_price (1/25000) 1 1 4 (1/10)) := by
  refine ⟨c3_val, ?_⟩
  rw [c3_val]
  norm_num

/-- Claim C3, amended: for every nonnegative referenceClose and every adv,
a buy prices at or above the 4-decimal rounding of referenceClose and a
sell prices at or below it (monotone sign of market impact up to the
rounding applied by the function itself). -/
theorem c3_sign_monotone (c adv : ℚ) (q : ℤ) (hc : (0:ℚ) ≤ c) :
    (0 < q → py_round4 ((c : ℚ) : ℝ) ≤ s_curve_price c q adv 4 (1/10)) ∧
    (q < 0 → s_curve_price c q adv 4 (1/10) ≤ py_round4 ((c : ℚ) : ℝ)) := by
  have hc' : (0:ℝ) ≤ ((c : ℚ) : ℝ) := by exact_mod_cast hc
  constructor
  · intro hq
    rw [s_curve_price_eq, if_pos hq]
    apply py_round4_mono
    have hu := sig_pos (-(4 * (|(q : ℝ)| / ((1/10) * max ((adv : ℚ) : ℝ) 1) - 1)))
    nlinarith
  · intro hq
    rw [s_curve_price_eq, if_neg (by omega : ¬ ((0:ℤ) < q))]
    apply py_round4_mono
    have hu := sig_pos (-(4 * (|(q : ℝ)| / ((1/10) * max ((adv : ℚ) : ℝ) 1) - 1)))
    nlinarith

/-- Witness for `c3_sign_monotone` at the fixture inputs. -/
theorem c3_sign_monotone_witness :
    (0:ℚ) ≤ 227.13 ∧
    ((0 < (10:ℤ) → py_round4 ((227.13 : ℚ) : ℝ) ≤ s_curve_price 227.13 10 82000000 4 (1/10)) ∧
     ((10:ℤ) < 0 → s_curve_price 227.13 10 82000000 4 (1/10) ≤ py_round4 ((227.13 : ℚ) : ℝ))) :=
  ⟨by norm_num, c3_sign_monotone 227.13 82000000 10 (by norm_num)⟩

/-- Claim C4, counterexample: `price(227.13, 10, 82000000, 4.0, 0.1)` equals
227.1382, which is not strictly below the reference close 227.13 and hence
not inside the claimed open interval (227.13 - 0.02286, 227.13). A buy is
signed positive, so the small order lands just above the close. -/
theorem c4_counterexample :
    s_curve_price 227.13 10 82000000 4 (1/10) = 227.1382 ∧
    ¬ (s_curve_price 227.13 10 82000000 4 (1/10) < 227.13) := by
  refine ⟨c4_val, ?_⟩
  rw [c4_val]
  norm_num

/-- Claim C4, amended: the call returns 227.1382, strictly inside the open
interval (227.13, 227.13 + 0.02286) — strictly above the reference close,
with negligible magnitude of impact for an order tiny relative to ADV. -/
theorem c4_small_buy_above_close :
    s_curve_price 227.13 10 82000000 4 (1/10) = 227.1382 ∧
    (227.13 : ℚ) < s_curve_price 227.13 10 82000000 4 (1/10) ∧
    s_curve_price 227.13 10 82000000 4 (1/10) < 227.13 + 0.02286 := by
  refine ⟨c4_val, ?_, ?_⟩ <;> rw [c4_val] <;> norm_num

/-! Helper lemmas about the state machine. -/

lemma pyTruthy_some {k : String} (hk : k ≠ "") : pyTruthy (some k) = true := by
  unfold pyTruthy
  simp [hk]

lemma idemHit_some_key (st : AppState) (k : String) (hk : k ≠ "") :
    idemHit st (some k) = dictGet st.rebalanceResults k := by
  unfold idemHit
  rw [pyTruthy_some hk]
  simp

lemma dictGet_cons_self {α : Type} (l : List (String × α)) (k : String) (v : α) :
    dictGet ((k, v) :: l) k = some v := by
  unfold dictGet
  simp

/-- Success path of `/rebalance`: no idempotency hit, successful account
resolution and a resolved price bar give the constructed response. -/
lemma rebalance_ok_of_resolve (st : AppState) (req : RebalanceRequest)
    (ik : Option String) (cl : Clock) (pb : PriceBar) (accounts : List String)
    (h0 : idemHit st ik = none)
    (hacc : resolved_accounts st req = Except.ok accounts)
    (h1 : resolve_price st req.asOf = some pb) :
    (rebalance st req ik cl).1 =
      RebalanceOutcome.ok (rebalance_success_resp st req cl pb accounts) := by
  unfold rebalance
  rw [h0, hacc, h1]

/-- Crash path of `/rebalance`: no idempotency hit and failing account
resolution surface the uncaught exception before any price logic runs. -/
lemma rebalance_crash_of_accounts (st : AppState) (req : RebalanceRequest)
    (ik : Option String) (cl : Clock) (e : PyExc)
    (h0 : idemHit st ik = none)
    (hacc : resolved_accounts st req = Except.error e) :
    rebalance st req ik cl = (RebalanceOutcome.crashed e, st) := by
  unfold rebalance
  rw [h0, hacc]

lemma rebalance_preserves_acked (st : AppState) (req : RebalanceRequest)
    (ik : Option String) (cl : Clock) :
    (rebalance st req ik cl).2.ackedRequests = st.ackedRequests := by
  unfold rebalance
  split
  · rfl
  · split
    · rfl
    · split
      · rfl
      · split <;> rfl

lemma ingest_preserves_acked (st : AppState) (ar : Archive) (ck : String)
    (ik : Option String) (asOf : Option String) (now : String) :
    (ingest_upload st ar ck ik asOf now).2.ackedRequests = st.ackedRequests := by
  simp only [ingest_upload]
  split
  · rfl
  · split
    · split_ifs <;> rfl
    · rfl

lemma ack_duplicate_eq (st : AppState) (resp : RebalanceResponse) :
    (ack st resp).1.duplicate = (dictGet st.ackedRequests resp.requestId).getD false :=
  rfl

lemma ack_sets_true (st : AppState) (resp : RebalanceResponse) :
    dictGet (ack st resp).2.ackedRequests resp.requestId = some true := by
  unfold ack
  exact dictGet_cons_self _ _ _

lemma ack_preserves_true (st : AppState) (resp : RebalanceResponse) (rid : String)
    (h : dictGet st.ackedRequests rid = some true) :
    dictGet (ack st resp).2.ackedRequests rid = some true := by
  unfold ack
  by_cases hr : resp.requestId = rid <;> simp [dictGet, hr, h]

lemma step_preserves_acked_true (st : AppState) (rid : String) (op : Op)
    (h : dictGet st.ackedRequests rid = some true) :
    dictGet (step st op).ackedRequests rid = some true := by
  cases op with
  | ingestOp ar ck ik asOf now =>
    unfold step
    rw [ingest_preserves_acked]
    exact h
  | rebalanceOp req ik cl =>
    unfold step
    rw [rebalance_preserves_acked]
    exact h
  | ackOp resp =>
    exact ack_preserves_true st resp rid h

lemma steps_preserves_acked_true (ops : List Op) :
    ∀ st : AppState, ∀ rid : String,
      dictGet st.ackedRequests rid = some true →
      dictGet (steps st ops).ackedRequests rid = some true := by
  induction ops with
  | nil => intro st rid h; exact h
  | cons op rest ih =>
    intro st rid h
    exact ih (step st op) rid (step_preserves_acked_true st rid op h)

/-! Claim C1: idempotent rebalance replay. -/

/-- Claim C1: when a truthy Idempotency-Key is already present in the
rebalance result store, `/rebalance` returns the stored result unchanged and
leaves the state alone, for any request body; any other state with the same
stored binding (fixtures may differ arbitrarily) yields the same result; and
every successful keyed rebalance leaves its own result stored under the key,
so two calls with the same key return the identical result. -/
theorem c1_idempotent_rebalance (st : AppState) (k : String) (r : RebalanceResponse)
    (hk : k ≠ "") (h : dictGet st.rebalanceResults k = some r) :
    (∀ req cl, rebalance st req (some k) cl = (RebalanceOutcome.ok r, st)) ∧
    (∀ st2 : AppState, ∀ req cl, dictGet st2.rebalanceResults k = some r →
      rebalance st2 req (some k) cl = (RebalanceOutcome.ok r, st2)) ∧
    (∀ st3 : AppState, ∀ req cl r3 st3',
      rebalance st3 req (some k) cl = (RebalanceOutcome.ok r3, st3') →
      dictGet st3'.rebalanceResults k = some r3) := by
  have hpart2 : ∀ st2 : AppState, ∀ req cl, dictGet st2.rebalanceResults k = some r →
      rebalance st2 req (some k) cl = (RebalanceOutcome.ok r, st2) := by
    intro st2 req cl h2
    unfold rebalance
    rw [idemHit_some_key st2 k hk, h2]
  refine ⟨fun req cl => hpart2 st req cl h, hpart2, ?_⟩
  intro st3 req cl r3 st3' hreb
  unfold rebalance at hreb
  rw [idemHit_some_key st3 k hk] at hreb
  cases h3 : dictGet st3.rebalanceResults k with
  | some r' =>
    rw [h3] at hreb
    injection hreb with h4 h5
    injection h4 with h6
    subst h5
    subst h6
    exact h3
  | none =>
    rw [h3] at hreb
    cases ha : resolved_accounts st3 req with
    | error e =>
      rw [ha] at hreb
      exact absurd hreb (by simp)
    | ok accounts =>
      rw [ha] at hreb
      cases h4 : resolve_price st3 req.asOf with
      | none =>
        rw [h4] at hreb
        exact absurd hreb (by simp)
      | some pb =>
        rw [h4] at hreb
        rw [pyTruthy_some hk] at hreb
        simp at hreb
        obtain ⟨h5, h6⟩ := hreb
        subst h5
        subst h6
        exact dictGet_cons_self _ _ _

/-- Sample request used by concrete witnesses (all-defaults filter). -/
def sampleReq : RebalanceRequest := ⟨"2025-08-25", ⟨none, 1/50, 1/10, 1/4⟩, 1/5, none⟩

/-- Sample clock used by concrete witnesses. -/
def sampleClock : Clock :=
  ⟨"2025-08-25T10:00:00+00:00", "2025-08-25T10:00:00+00:00", 1756116000⟩

/-- State holding one stored rebalance result, for the C1 witness. -/
def c1_state : AppState :=
  { initialState with rebalanceResults := [("key-1", ⟨"rb-1", []⟩)] }

/-- Witness for `c1_idempotent_rebalance` at a concrete stored result. -/
theorem c1_idempotent_rebalance_witness :
    ("key-1" : String) ≠ "" ∧
    dictGet c1_state.rebalanceResults "key-1" = some ⟨"rb-1", []⟩ ∧
    ((∀ req cl,
       rebalance c1_state req (some "key-1") cl = (RebalanceOutcome.ok ⟨"rb-1", []⟩, c1_state)) ∧
     (∀ st2 : AppState, ∀ req cl, dictGet st2.rebalanceResults "key-1" = some ⟨"rb-1", []⟩ →
       rebalance st2 req (some "key-1") cl = (RebalanceOutcome.ok ⟨"rb-1", []⟩, st2)) ∧
     (∀ st3 : AppState, ∀ req cl r3 st3',
       rebalance st3 req (some "key-1") cl = (RebalanceOutcome.ok r3, st3') →
       dictGet st3'.rebalanceResults "key-1" = some r3)) :=
  ⟨by decide, by decide,
   c1_idempotent_rebalance c1_state "key-1" ⟨"rb-1", []⟩ (by decide) (by decide)⟩

/-! Claim C5: price-resolution fallback and the 503 failure. -/

/-- State with an empty price store. -/
def c5_state : AppState := { initialState with stubPrices := [] }

/-- Claim C5, counterexample: a no-idempotency-hit request whose accountIds
filter is absent crashes with TypeError during account resolution
(judge_client.py line 90, reached from main.py line 167) before any price
query runs — so even with no price bar anywhere, the outcome is an uncaught
exception, not the claimed 503. -/
theorem c5_counterexample :
    idemHit c5_state none = none ∧
    sampleReq.filters.accountIds = none ∧
    find_price (get_prices c5_state (some sampleReq.asOf) none) "AAPL" (some sampleReq.asOf) = none ∧
    find_price (get_prices c5_state none none) "AAPL" none = none ∧
    rebalance c5_state sampleReq none sampleClock =
      (RebalanceOutcome.crashed ⟨"TypeError"⟩, c5_state) :=
  ⟨rfl, rfl, rfl, rfl, rfl⟩

/-- Claim C5, amended: for requests that get past account resolution (a
nonempty accountIds list; otherwise the TypeError of judge_client.py line 90
fires first): with no idempotency hit and no AAPL bar at the as-of date, the
resolved bar is exactly the first AAPL match (any date) of the full
unfiltered price set; when that exists the rebalance succeeds using it, and
when it does not, the call fails with the 503 error naming the ticker and
the as-of date and the state is left unchanged (no orders are produced). -/
theorem c5_price_fallback_503 (st : AppState) (req : RebalanceRequest)
    (ik : Option String) (cl : Clock) (accounts : List String)
    (h0 : idemHit st ik = none)
    (hacc : resolved_accounts st req = Except.ok accounts)
    (hmiss : find_price (get_prices st (some req.asOf) none) "AAPL" (some req.asOf) = none) :
    resolve_price st req.asOf = find_price (get_prices st none none) "AAPL" none ∧
    (∀ pb, find_price (get_prices st none none) "AAPL" none = some pb →
      (rebalance st req ik cl).1 =
        RebalanceOutcome.ok (rebalance_success_resp st req cl pb accounts)) ∧
    (find_price (get_prices st none none) "AAPL" none = none →
      rebalance st req ik cl = (RebalanceOutcome.httpError ⟨503, no_price_detail req.asOf⟩, st)) := by
  have hres : resolve_price st req.asOf = find_price (get_prices st none none) "AAPL" none := by
    unfold resolve_price
    rw [hmiss]
  refine ⟨hres, ?_, ?_⟩
  · intro pb hpb
    exact rebalance_ok_of_resolve st req ik cl pb accounts h0 hacc (hres.trans hpb)
  · intro hnone
    unfold rebalance
    rw [h0, hacc, hres.trans hnone]

/-- Request naming one explicit account, so account resolution succeeds. -/
def acct_req : RebalanceRequest := ⟨"2025-08-25", ⟨some ["C001"], 1/50, 1/10, 1/4⟩, 1/5, none⟩

/-- Witness for `c5_price_fallback_503` on the empty price store with an
explicit account filter. -/
theorem c5_price_fallback_503_witness :
    idemHit c5_state none = none ∧
    resolved_accounts c5_state acct_req = Except.ok ["C001"] ∧
    find_price (get_prices c5_state (some acct_req.asOf) none) "AAPL" (some acct_req.asOf) = none ∧
    (resolve_price c5_state acct_req.asOf = find_price (get_prices c5_state none none) "AAPL" none ∧
     (∀ pb, find_price (get_prices c5_state none none) "AAPL" none = some pb →
       (rebalance c5_state acct_req none sampleClock).1 =
         RebalanceOutcome.ok (rebalance_success_resp c5_state acct_req sampleClock pb ["C001"])) ∧
     (find_price (get_prices c5_state none none) "AAPL" none = none →
       rebalance c5_state acct_req none sampleClock =
         (RebalanceOutcome.httpError ⟨503, no_price_detail acct_req.asOf⟩, c5_state))) :=
  ⟨rfl, rfl, rfl,
   c5_price_fallback_503 c5_state acct_req none sampleClock ["C001"] rfl rfl rfl⟩

/-! Claim C7: acknowledgement duplicate detection. -/

/-- Claim C7: for any requestId not yet acknowledged — including one never
produced by a rebalance — the first `ack` returns duplicate = false, and
after it every later `ack` of the same requestId returns duplicate = true,
no matter which ingest/rebalance/ack calls run in between. -/
theorem c7_ack_duplicate (st : AppState) (resp1 : RebalanceResponse)
    (h : dictGet st.ackedRequests resp1.requestId = none) :
    (ack st resp1).1.duplicate = false ∧
    (∀ ops : List Op, ∀ resp2 : RebalanceResponse, resp2.requestId = resp1.requestId →
      (ack (steps (ack st resp1).2 ops) resp2).1.duplicate = true) := by
  constructor
  · rw [ack_duplicate_eq, h]
    rfl
  · intro ops resp2 hr
    have h1 : dictGet (ack st resp1).2.ackedRequests resp2.requestId = some true := by
      rw [hr]
      exact ack_sets_true st resp1
    have h2 := steps_preserves_acked_true ops (ack st resp1).2 resp2.requestId h1
    rw [ack_duplicate_eq, h2]
    rfl

/-- Witness for `c7_ack_duplicate` on a fabricated requestId never produced
by any rebalance. -/
theorem c7_ack_duplicate_witness :
    dictGet initialState.ackedRequests "ghost-request" = none ∧
    ((ack initialState ⟨"ghost-request", []⟩).1.duplicate = false ∧
     (∀ ops : List Op, ∀ resp2 : RebalanceResponse, resp2.requestId = "ghost-request" →
       (ack (steps (ack initialState ⟨"ghost-request", []⟩).2 ops) resp2).1.duplicate = true)) :=
  ⟨rfl, c7_ack_duplicate initialState ⟨"ghost-request", []⟩ rfl⟩

/-! Claim C6: sentiment tilt. -/

/-- State whose only sentiment record carries an out-of-range score 2 — an
ingestible value, since ingestion parses scores unconstrained. -/
def c6_state : AppState :=
  { initialState with stubSentiment := [⟨"2025-08-25", "AAPL", "pos", 2, none⟩] }

/-- Claim C6, counterexample: with a stored AAPL sentiment score of 2 the
tilt is (2 - 0.5) * 2 = 3, which does not lie in [-1, 1]; the code never
clamps the tilt. -/
theorem c6_counterexample : tilt_of c6_state = 3 ∧ ¬ (tilt_of c6_state ≤ 1) := by
  have h : first_aapl_senti c6_state = some ⟨"2025-08-25", "AAPL", "pos", 2, none⟩ := rfl
  have h1 : tilt_of c6_state = 3 := by
    unfold tilt_of
    rw [h]
    norm_num
  refine ⟨h1, ?_⟩
  rw [h1]
  norm_num

/-- Claim C6, amended: the tilt is `(score - 0.5) * 2` from the first AAPL
sentiment record and 0 when none exists, and it lies in [-1, 1] whenever the
record's score lies in [0, 1] (no clamping is applied for scores outside
that range); the rebalance order quantity is computed from this tilt. -/
theorem c6_tilt_formula (st : AppState) (s : SentimentRecord)
    (h : first_aapl_senti st = some s) :
    tilt_of st = (s.score - 1/2) * 2 ∧
    (0 ≤ s.score ∧ s.score ≤ 1 → -1 ≤ tilt_of st ∧ tilt_of st ≤ 1) ∧
    (∀ st2 : AppState, first_aapl_senti st2 = none → tilt_of st2 = 0) ∧
    (∀ w : ℚ, qty_common_of st w = max 1 (round ((10 : ℚ) * (1 + w * tilt_of st)))) := by
  have h1 : tilt_of st = (s.score - 1/2) * 2 := by
    unfold tilt_of
    rw [h]
  refine ⟨h1, ?_, ?_, fun w => rfl⟩
  · rintro ⟨ha, hb⟩
    rw [h1]
    constructor <;> linarith
  · intro st2 h2
    unfold tilt_of
    rw [h2]

/-- Witness for `c6_tilt_formula` at the default fixture record. -/
theorem c6_tilt_formula_witness :
    first_aapl_senti initialState =
      some ⟨"2025-08-25", "AAPL", "pos", 0.78, some "https://news.example/a"⟩ ∧
    (tilt_of initialState = (0.78 - 1/2) * 2 ∧
     (0 ≤ (0.78 : ℚ) ∧ (0.78 : ℚ) ≤ 1 → -1 ≤ tilt_of initialState ∧ tilt_of initialState ≤ 1) ∧
     (∀ st2 : AppState, first_aapl_senti st2 = none → tilt_of st2 = 0) ∧
     (∀ w : ℚ, qty_common_of initialState w =
        max 1 (round ((10 : ℚ) * (1 + w * tilt_of initialState))))) :=
  ⟨rfl,
   c6_tilt_formula initialState
     ⟨"2025-08-25", "AAPL", "pos", 0.78, some "https://news.example/a"⟩ rfl⟩

/-! Claim C8: ingestion member check rejects without mutation. -/

/-- Claim C8: with a fresh key, an archive whose member names satisfy neither
required set is rejected with the 400 error and the returned state is the
input state — every stored fixture list and the idempotency registry are
exactly as before the call. -/
theorem c8_ingest_missing_members (st : AppState) (ar : Archive) (ck : String)
    (ik : Option String) (asOf : Option String) (now : String)
    (hfresh : dictGet st.ingestedChecksums (ingest_key ik ck) = none)
    (hmiss : required_ok ar.names = false) :
    ingest_upload st ar ck ik asOf now =
      (Except.error ⟨400, ingest_missing_detail ar.names⟩, st) := by
  unfold ingest_upload
  rw [hfresh]
  simp [hmiss]

/-- Archive missing sentiment.jsonl (and prices.parquet), for the C8
witness. -/
def c8_archive : Archive :=
  ⟨["clients.csv", "holdings.csv", "index.csv", "prices.csv"], [], [], [], [], []⟩

/-- Witness for `c8_ingest_missing_members` on a concrete archive. -/
theorem c8_ingest_missing_members_witness :
    dictGet initialState.ingestedChecksums (ingest_key none "sha256:demo") = none ∧
    required_ok c8_archive.names = false ∧
    ingest_upload initialState c8_archive "sha256:demo" none none "20250825-100000" =
      (Except.error ⟨400, ingest_missing_detail c8_archive.names⟩, initialState) :=
  ⟨rfl, by decide,
   c8_ingest_missing_members initialState c8_archive "sha256:demo" none none
     "20250825-100000" rfl (by decide)⟩

/-! Claims C9 and C10: account resolution and ADV substitution. -/

/-- Request whose filter carries an explicitly empty accountIds list. -/
def c9_req : RebalanceRequest := ⟨"2025-08-25", ⟨some [], 1/50, 1/10, 1/4⟩, 1/5, none⟩

/-- Claim C9, code-bug evaluation: an empty accountIds list is treated like
an absent filter in that both take the `list_clients()` fallback
(main.py lines 165-168) — but that call always raises TypeError in stub
mode, because judge_client.py line 90 guards with `(cursor or "0").isdigit()`
while applying `int` to the original None cursor. The request dies with an
uncaught exception and no orders are built, instead of one order per known
client as the claim (and spec section 4.4 step 2) intends. -/
theorem c9_crash_on_empty_filter :
    c9_req.filters.accountIds = some [] ∧
    idemHit initialState none = none ∧
    list_clients initialState 100 none = Except.error ⟨"TypeError"⟩ ∧
    rebalance initialState c9_req none sampleClock =
      (RebalanceOutcome.crashed ⟨"TypeError"⟩, initialState) :=
  ⟨rfl, rfl, rfl, rfl⟩

/-- Price bar with a missing ADV and the state exposing it, for C10. -/
def c10_bar : PriceBar := ⟨"2025-08-25", "AAPL", 100, none⟩

/-- State whose only price bar has no ADV. -/
def c10_state : AppState := { initialState with stubPrices := [c10_bar] }

/-- Claim C10: for a rebalance that reaches order construction (no
idempotency hit, account resolution succeeded, a price bar resolved), when
the resolved bar's ADV is None or 0 (both falsy in Python's
`pb.adv or 1_000_000`), every order is priced with the substituted default
ADV of 1,000,000 shares. -/
theorem c10_adv_default (st : AppState) (req : RebalanceRequest)
    (ik : Option String) (cl : Clock) (pb : PriceBar) (accounts : List String)
    (h0 : idemHit st ik = none)
    (hacc : resolved_accounts st req = Except.ok accounts)
    (h1 : resolve_price st req.asOf = some pb)
    (h2 : pb.adv = none ∨ pb.adv = some 0) :
    adv_used pb = 1000000 ∧
    (rebalance st req ik cl).1 =
      RebalanceOutcome.ok (rebalance_success_resp st req cl pb accounts) ∧
    (∀ o ∈ (rebalance_success_resp st req cl pb accounts).orders,
      o.execPrice =
        s_curve_price pb.close (qty_common_of st req.sentimentWeight) 1000000 4 (1/10)) := by
  have ha : adv_used pb = 1000000 := by
    rcases h2 with h | h <;> simp [adv_used, h]
  refine ⟨ha, rebalance_ok_of_resolve st req ik cl pb accounts h0 hacc h1, ?_⟩
  intro o ho
  unfold rebalance_success_resp at ho
  simp only [List.mem_map] at ho
  obtain ⟨acc, _, rfl⟩ := ho
  rw [← ha]

/-- Witness for `c10_adv_default` on a bar with ADV None, using an explicit
account filter so that order construction is reached. -/
theorem c10_adv_default_witness :
    idemHit c10_state none = none ∧
    resolved_accounts c10_state acct_req = Except.ok ["C001"] ∧
    resolve_price c10_state acct_req.asOf = some c10_bar ∧
    (c10_bar.adv = none ∨ c10_bar.adv = some 0) ∧
    (adv_used c10_bar = 1000000 ∧
     (rebalance c10_state acct_req none sampleClock).1 =
        RebalanceOutcome.ok (rebalance_success_resp c10_state acct_req sampleClock c10_bar ["C001"]) ∧
     (∀ o ∈ (rebalance_success_resp c10_state acct_req sampleClock c10_bar ["C001"]).orders,
       o.execPrice =
         s_curve_price c10_bar.close (qty_common_of c10_state acct_req.sentimentWeight)
           1000000 4 (1/10))) :=
  ⟨rfl, rfl, rfl, Or.inl rfl,
   c10_adv_default c10_state acct_req none sampleClock c10_bar ["C001"] rfl rfl rfl
     (Or.inl rfl)⟩

end RoboAdvisor
